import Mathlib

set_option linter.unusedVariables false

/-!
Shallow embedding of `rofi-bookmarks.py` (list-mode core, profile
resolution, and the snapshot context manager), with theorems checking the
specification's claims against it.

Conventions of the embedding:
* SQLite rows of the bookmark query become `BookmarkRow` (integer ids,
  optional title and url, since both columns are nullable).
* Python's `by_id` dict comprehension becomes a lookup function in which a
  later row with the same id overwrites an earlier one.
* `parent_generator` is a `while` loop; it is embedded with an explicit
  fuel argument.  `GenRes.timeout` means the loop did not finish within
  `fuel` iterations, so `(forall fuel, ... = .timeout)` states that the
  Python loop never terminates.  `GenRes.keyError` models the `KeyError`
  raised by `by_id[i]` on a missing key.
* The filter `all(name == next(path_arr) for name in search_path)` is a
  short-circuiting scan that consumes a one-pass iterator; `filter_check`
  returns the Boolean outcome together with the unconsumed remainder of
  the iterator, or `RunError.stopIteration` for the `RuntimeError` that
  PEP 479 turns a bare `StopIteration` inside the generator expression
  into when the path runs out before the filter does.
* `print(f"{path}\x00info\x1f{url}")` formats a `None` url as the string
  "None", hence `url_str`.
* Output of a run is the list of lines printed before the run either
  finishes (`none`) or aborts with an uncaught exception (`some e`).
-/

/-- One row of the query
`SELECT id, parent, type, title, url FROM moz_bookmarks LEFT JOIN moz_places ...`.
`title` and `url` are nullable columns. -/
structure BookmarkRow where
  id : Int
  parent : Int
  type : Int
  title : Option String
  url : Option String
deriving DecidableEq

/-- Exceptions the list-mode run can raise. -/
inductive RunError where
  /-- `KeyError` from `by_id[i]` on a dangling parent reference. -/
  | keyError
  /-- the `while i > 1` loop of `parent_generator` never terminates. -/
  | nonTermination
  /-- `RuntimeError` (PEP 479) from `next(path_arr)` on an exhausted iterator. -/
  | stopIteration
  /-- `IndexError` from `[-1]` on an empty list in `title_gen_only_name`. -/
  | indexError
deriving DecidableEq

/-- Result of forcing `list(parent_generator(i, by_id))` with bounded fuel. -/
inductive GenRes where
  | ok (titles : List (Option String))
  | keyError
  | timeout
deriving DecidableEq

/-- `by_id = {i: (title, parent) for i, parent, _, title, _ in bookmarks}`:
a later row with the same id overwrites an earlier one. -/
def by_id (rows : List BookmarkRow) (i : Int) : Option (Option String × Int) :=
  (rows.reverse.find? (fun r => r.id == i)).map (fun r => (r.title, r.parent))

/-- `def parent_generator(i, by_id): while i > 1: title, i = by_id[i]; yield title`,
forced to a list, with fuel bounding the number of loop iterations. -/
def parent_generator (byId : Int → Option (Option String × Int)) :
    Nat → Int → GenRes
  | 0, i => if i ≤ 1 then GenRes.ok [] else GenRes.timeout
  | f + 1, i =>
    if i ≤ 1 then GenRes.ok []
    else
      match byId i with
      | none => GenRes.keyError
      | some (t, j) =>
        match parent_generator byId f j with
        | GenRes.ok ts => GenRes.ok (t :: ts)
        | r => r

/-- `all(name == next(path_arr) for name in search_path)` over the one-pass
iterator `path_arr`: returns the Boolean outcome and the unconsumed remainder
of the iterator, or the PEP 479 `RuntimeError` when the iterator is exhausted
while names remain. -/
def filter_check : List String → List (Option String) →
    Except RunError (Bool × List (Option String))
  | [], path => Except.ok (true, path)
  | _ :: _, [] => Except.error RunError.stopIteration
  | name :: names, p :: ps =>
    if p = some name then filter_check names ps
    else Except.ok (false, ps)

/-- `f"{path}\x00info\x1f{url}"` renders a `None` url as the string "None". -/
def url_str : Option String → String
  | some u => u
  | none => "None"

/-- `def title_gen_full_path(path, separator=' / '): return separator.join(filter(lambda x: x is not None, path))`. -/
def title_gen_full_path (separator : String) (path : List (Option String)) :
    Except RunError String :=
  Except.ok (String.intercalate separator (path.filterMap id))

/-- `def title_gen_only_name(path): return list(filter(lambda x: x is not None, path))[-1]`;
`[-1]` on an empty list raises `IndexError`. -/
def title_gen_only_name (path : List (Option String)) : Except RunError String :=
  match (path.filterMap id).getLast? with
  | some t => Except.ok t
  | none => Except.error RunError.indexError

/-- One iteration of the loop body of `write_rofi_input` for a single row:
skip non-bookmark rows, build the ancestry, reverse it, run the filter over
the one-pass iterator, render the remainder, and format the line.
`Except.ok none` means the row is skipped, `Except.ok (some line)` means the
line is printed, `Except.error e` means the run aborts with exception `e`. -/
def processRow (byId : Int → Option (Option String × Int))
    (titleGen : List (Option String) → Except RunError String)
    (search_path : List String) (fuel : Nat) (r : BookmarkRow) :
    Except RunError (Option String) :=
  if r.type ≠ 1 then Except.ok none
  else
    match parent_generator byId fuel r.id with
    | GenRes.keyError => Except.error RunError.keyError
    | GenRes.timeout => Except.error RunError.nonTermination
    | GenRes.ok titles =>
      match filter_check search_path titles.reverse with
      | Except.error e => Except.error e
      | Except.ok (false, _) => Except.ok none
      | Except.ok (true, rest) =>
        match titleGen rest with
        | Except.error e => Except.error e
        | Except.ok path =>
          Except.ok (some (path ++ "\x00info\x1f" ++ url_str r.url))

/-- The `for index, parent, t, title, url in bookmarks` loop: collects the
lines printed before the run finishes (`none`) or an exception aborts the
rest of the loop (`some e`). -/
def run_rows (byId : Int → Option (Option String × Int))
    (titleGen : List (Option String) → Except RunError String)
    (search_path : List String) (fuel : Nat) :
    List BookmarkRow → List String × Option RunError
  | [] => ([], none)
  | r :: rs =>
    match processRow byId titleGen search_path fuel r with
    | Except.error e => ([], some e)
    | Except.ok none => run_rows byId titleGen search_path fuel rs
    | Except.ok (some line) =>
      let rest := run_rows byId titleGen search_path fuel rs
      (line :: rest.1, rest.2)

/-- `def write_rofi_input(bookmarks, favicons_gen, title_gen, search_path=[])`:
`favicons_gen` is accepted and never used, exactly as in the source. -/
def write_rofi_input (bookmarks : List BookmarkRow) (favicons_gen : Unit)
    (titleGen : List (Option String) → Except RunError String)
    (search_path : List String) (fuel : Nat) : List String × Option RunError :=
  run_rows (by_id bookmarks) titleGen search_path fuel bookmarks

/-- `search_path = [i for i in args.path.split('/') if i != '']`. -/
def search_path_of (pathArg : String) : List String :=
  (pathArg.splitOn "/").filter (fun s => s ≠ "")

/-- The prompt-customization control line `print("\x00prompt\x1fï‰© ")`. -/
def prompt_line : String := "\x00prompt\x1fï‰© "

/-- The list-mode branch of `__main__`: prints the prompt line, then the
entry lines.  `separator` is the parsed separator CLI argument (`-s`); the
executed call passes `title_gen_only_name`, which does not take a
separator, so the argument is bound but unused (the `title_gen_full_path`
call that would use it is commented out in the source). -/
def list_mode (bookmarks : List BookmarkRow) (pathArg : String)
    (separator : String) (fuel : Nat) : List String × Option RunError :=
  let out := write_rofi_input bookmarks () title_gen_only_name
    (search_path_of pathArg) fuel
  (prompt_line :: out.1, out.2)

/-- Filesystem and connection state visible to the snapshot reader. -/
structure FS where
  tempExists : Bool
  connOpen : Bool
deriving DecidableEq

/-- A body either returns a value or raises an exception. -/
inductive Outcome (α : Type) where
  | ret : α → Outcome α
  | exc : String → Outcome α

/-- `temp_sqlite`: `with NamedTemporaryFile() as temp_loc:` creates the
temporary file; `copyfile` fills it; `with closing(sqlite3.connect(...))`
opens the connection; the body runs at the `yield`; then — on the normal
path and on the exception path alike, by the `with`-statement guarantee —
`closing.__exit__` closes the connection and `NamedTemporaryFile.__exit__`
deletes the temporary file, and the body's outcome (value or exception) is
propagated. -/
def temp_sqlite {α : Type} (body : FS → Outcome α × FS) (s : FS) :
    Outcome α × FS :=
  let s1 : FS := { s with tempExists := true }
  let s2 : FS := { s1 with connOpen := true }
  let r := body s2
  let s3 : FS := { r.2 with connOpen := false }
  let s4 : FS := { s3 with tempExists := false }
  (r.1, s4)

/-- Profile-resolution error of `path_from_name`
(`raise Exception("no profile with this name")`). -/
inductive ProfileErr where
  | profileNotFound
deriving DecidableEq

/-- An INI section as a key/value association list. -/
def IniSection : Type := List (String × String)

/-- `def path_from_name(name)`: scan the parsed sections of `profiles.ini`
in order; `with suppress(KeyError)` means a section without a `Name` key —
or one whose `Name` matches but which lacks a `Path` key — is silently
skipped; the first section with a matching `Name` and a present `Path`
yields `firefox_dir / Path`; otherwise the run raises. -/
def path_from_name (firefoxDir : String) (name : String) :
    List IniSection → Except ProfileErr String
  | [] => Except.error ProfileErr.profileNotFound
  | s :: rest =>
    match List.lookup "Name" s with
    | none => path_from_name firefoxDir name rest
    | some v =>
      if v = name then
        match List.lookup "Path" s with
        | none => path_from_name firefoxDir name rest
        | some p => Except.ok (firefoxDir ++ "/" ++ p)
      else path_from_name firefoxDir name rest

/-- The claim's filter condition, written from the specification's words:
for every position `k` in the search filter, the `k`-th element of the
reversed ancestry exists and equals the `k`-th filter segment exactly. -/
def claim_matches : List String → List (Option String) → Bool
  | [], _ => true
  | _ :: _, [] => false
  | name :: names, p :: ps =>
    if p = some name then claim_matches names ps else false

/-- The specification's reading of the ancestor-path builder, written from
its words: the titles from the immediate parent upward, i.e. look up the
node's parent first and collect titles from there. -/
def titles_from_parent (byId : Int → Option (Option String × Int))
    (fuel : Nat) (i : Int) : GenRes :=
  match byId i with
  | none => GenRes.keyError
  | some (_, j) => parent_generator byId fuel j

deriving instance DecidableEq for Except

/-! Concrete inputs used by counterexamples and witnesses. -/

/-- The synthetic row set of the end-to-end property (entry type 2 is a
folder, 1 a bookmark). -/
def rowsC5 : List BookmarkRow :=
  [⟨1, 0, 2, some "root", none⟩,
   ⟨2, 1, 2, some "Work", none⟩,
   ⟨3, 2, 1, some "Mail", some "http://mail.example"⟩]

/-- A row whose parent id points to itself, followed by a valid row. -/
def rowsC2 : List BookmarkRow :=
  [⟨2, 2, 1, some "Loop", some "http://l"⟩,
   ⟨3, 1, 1, some "Ok", some "http://ok"⟩]

/-- A parent index with a two-level chain 3 → 2 → 1. -/
def byIdC3 : Int → Option (Option String × Int) := fun i =>
  if i = 3 then some (some "Mail", 2)
  else if i = 2 then some (some "Work", 1)
  else none

/-- A single bookmark whose entire reversed path equals the filter below. -/
def rowsC10 : List BookmarkRow := [⟨2, 1, 1, some "News", some "http://n"⟩]

/-- The self-parent row of `rowsC2` is found in its own parent map. -/
theorem by_id_rowsC2_self : by_id rowsC2 2 = some (some "Loop", 2) := rfl

/-- On the self-parent id, the `while i > 1` loop of `parent_generator`
runs out of any amount of fuel: the Python loop never terminates. -/
theorem parent_generator_rowsC2_loops (fuel : Nat) :
    parent_generator (by_id rowsC2) fuel 2 = GenRes.timeout := by
  induction fuel with
  | zero => rfl
  | succ f ih => simp [parent_generator, by_id_rowsC2_self, ih]

/-- C2: the claim asks the listing to skip a record whose parent chain
does not terminate and to keep emitting the other valid records.  The code
instead materializes `list(parent_generator(index, by_id))` with no hop
bound or visited set, so on a self-parent row (`rowsC2`, id 2 with parent
2) the loop never terminates: for every fuel bound the run is still stuck,
no line is printed, and the later valid row (id 3, "Ok") never appears. -/
theorem c2_malformed_tree_hangs (fuel : Nat) :
    write_rofi_input rowsC2 () title_gen_only_name [] fuel =
      ([], some RunError.nonTermination) := by
  have h2 : parent_generator (by_id rowsC2) fuel 2 = GenRes.timeout :=
    parent_generator_rowsC2_loops fuel
  simp only [write_rofi_input, rowsC2] at h2 ⊢
  simp [run_rows, processRow, h2]

/-- C3 (counterexample): on the chain 3 → 2 → 1 the builder's first
emitted title is the node's own ("Mail"), not the immediate parent's
("Work"): its output differs from the titles-from-immediate-parent-upward
sequence the claim describes, which is computed by `titles_from_parent`. -/
theorem c3_counterexample :
    parent_generator byIdC3 10 3 = GenRes.ok [some "Mail", some "Work"] ∧
    titles_from_parent byIdC3 10 3 = GenRes.ok [some "Work"] ∧
    GenRes.ok [some "Mail", some "Work"] ≠ GenRes.ok [some "Work"] :=
  ⟨rfl, rfl, by decide⟩

/-- C3 (amended): the builder stops as soon as the current id is at most 1
and emits no title for the sentinel; on a node above the sentinel it
emits the node's OWN title first and then continues from the node's
parent (so the sequence runs from the node itself upward, not from the
immediate parent upward). -/
theorem c3_builder_own_title_first (byId : Int → Option (Option String × Int)) :
    (∀ fuel i, i ≤ 1 → parent_generator byId fuel i = GenRes.ok []) ∧
    (∀ fuel i t j ts, 1 < i → byId i = some (t, j) →
      parent_generator byId fuel j = GenRes.ok ts →
      parent_generator byId (fuel + 1) i = GenRes.ok (t :: ts)) := by
  constructor
  · intro fuel i h
    cases fuel <;> simp [parent_generator, h]
  · intro fuel i t j ts hi hb hg
    have h1 : ¬ i ≤ 1 := not_le.mpr hi
    simp [parent_generator, h1, hb, hg]

/-- C3 (witness): the amended characterization applied on the concrete
chain 3 → 2 → 1. -/
theorem c3_witness :
    parent_generator byIdC3 3 3 = GenRes.ok [some "Mail", some "Work"] :=
  (c3_builder_own_title_first byIdC3).2 2 3 (some "Mail") 2 [some "Work"]
    (by decide) rfl (by decide)

/-- C5 (counterexample): on the claim's synthetic rows with an empty
filter and full-path rendering, the emitted line has no space between the
unit separator and the URL, while the claim's expected line
"Work / Mail\x00info\x1f http://mail.example" has one. -/
theorem c5_counterexample :
    write_rofi_input rowsC5 () (title_gen_full_path " / ") [] 10 =
      (["Work / Mail\x00info\x1fhttp://mail.example"], none) ∧
    "Work / Mail\x00info\x1fhttp://mail.example" ≠
      "Work / Mail\x00info\x1f http://mail.example" :=
  ⟨rfl, by decide⟩

/-- C5 (amended): the claim's synthetic row set with an empty filter under
full-path rendering produces exactly the one entry line
"Work / Mail\x00info\x1fhttp://mail.example" (no space after the unit
separator), and the run finishes without error. -/
theorem c5_end_to_end :
    write_rofi_input rowsC5 () (title_gen_full_path " / ") [] 10 =
      (["Work / Mail\x00info\x1fhttp://mail.example"], none) := rfl

/-- C6: `temp_sqlite` leaves no temporary file and no open connection on
ANY exit path — the body's outcome, value or exception alike, is
propagated unchanged while the connection is closed and the temporary
copy removed first. -/
theorem c6_snapshot_cleanup {α : Type} (body : FS → Outcome α × FS) (s : FS) :
    (temp_sqlite body s).2.tempExists = false ∧
    (temp_sqlite body s).2.connOpen = false ∧
    (temp_sqlite body s).1 =
      (body { tempExists := true, connOpen := true }).1 :=
  ⟨rfl, rfl, rfl⟩

/-- C9: two list-mode runs that differ only in the separator argument
produce identical output, because the executed call renders with
`title_gen_only_name` and the separator is never consulted. -/
theorem c9_separator_has_no_effect (bookmarks : List BookmarkRow)
    (pathArg : String) (sep1 sep2 : String) (fuel : Nat) :
    list_mode bookmarks pathArg sep1 fuel =
      list_mode bookmarks pathArg sep2 fuel := rfl

/-- C10: with filter ["News"] and the single bookmark whose entire
reversed path is [some "News"], the filter check consumes the whole
one-pass iterator and succeeds, the renderer then sees an empty remainder
and raises IndexError, and the run aborts with no line emitted. -/
theorem c10_exact_filter_consumes_iterator :
    parent_generator (by_id rowsC10) 5 2 = GenRes.ok [some "News"] ∧
    filter_check ["News"] [some "News"] = Except.ok (true, []) ∧
    title_gen_only_name [] = Except.error RunError.indexError ∧
    write_rofi_input rowsC10 () title_gen_only_name ["News"] 5 =
      ([], some RunError.indexError) :=
  ⟨rfl, rfl, rfl, rfl⟩

/-- The filter check succeeds with `true` exactly when the specification's
positional condition holds, and in that case the unconsumed remainder of
the one-pass iterator is the path with its first `search.length` elements
dropped. -/
theorem filter_check_ok_true_iff (search : List String) :
    ∀ (path rest : List (Option String)),
      filter_check search path = Except.ok (true, rest) ↔
        (claim_matches search path = true ∧
          rest = path.drop search.length) := by
  induction search with
  | nil =>
    intro path rest
    simp [filter_check, claim_matches, eq_comm]
  | cons name names ih =>
    intro path rest
    cases path with
    | nil => simp [filter_check, claim_matches]
    | cons p ps =>
      by_cases hp : p = some name
      · simp [filter_check, claim_matches, hp, ih]
      · simp [filter_check, claim_matches, hp]

/-- A path that satisfies the specification's positional condition is at
least as long as the filter. -/
theorem claim_matches_length (search : List String) :
    ∀ path : List (Option String),
      claim_matches search path = true → search.length ≤ path.length := by
  induction search with
  | nil => intro path h; simp
  | cons n ns ih =>
    intro path h
    cases path with
    | nil => simp [claim_matches] at h
    | cons p ps =>
      by_cases hp : p = some n
      · simp only [claim_matches, hp, if_pos] at h
        simpa using ih ps h
      · simp [claim_matches, hp] at h

/-- C4: a bookmark whose reversed ancestor path has fewer segments than
the search filter never yields an output line — the filter either
short-circuits to false on a mismatch or exhausts the iterator and raises,
and in neither case is the entry emitted. -/
theorem c4_short_path_never_emitted
    (byId : Int → Option (Option String × Int))
    (titleGen : List (Option String) → Except RunError String)
    (search : List String) (fuel : Nat) (r : BookmarkRow)
    (ts : List (Option String)) (line : String)
    (hg : parent_generator byId fuel r.id = GenRes.ok ts)
    (hshort : ts.reverse.length < search.length) :
    processRow byId titleGen search fuel r ≠ Except.ok (some line) := by
  intro hcontra
  by_cases ht : r.type = 1
  · simp only [processRow, ht, ne_eq, not_true_eq_false, if_false, hg] at hcontra
    cases hfc : filter_check search ts.reverse with
    | error e => rw [hfc] at hcontra; exact Except.noConfusion hcontra
    | ok br =>
      obtain ⟨b, rest⟩ := br
      cases b
      · rw [hfc] at hcontra
        simp at hcontra
      · have hm := ((filter_check_ok_true_iff search ts.reverse rest).mp hfc).1
        have hlen := claim_matches_length search ts.reverse hm
        omega
  · simp [processRow, ht] at hcontra

/-- C4 (witness): a one-segment path against the two-segment filter
["A", "B"] is not emitted. -/
theorem c4_witness :
    processRow (fun i => if i = 2 then some (some "A", 1) else none)
      title_gen_only_name ["A", "B"] 5 ⟨2, 1, 1, some "A", some "http://a"⟩ ≠
      Except.ok (some "A\x00info\x1fhttp://a") :=
  c4_short_path_never_emitted _ title_gen_only_name ["A", "B"] 5
    ⟨2, 1, 1, some "A", some "http://a"⟩ [some "A"] "A\x00info\x1fhttp://a"
    (by decide) (by decide)

/-- The single row used to refute the claimed inclusion iff. -/
def rowsC1 : List BookmarkRow := [⟨2, 1, 1, some "Inbox", some "http://i"⟩]

/-- C1 (counterexample): for the row set `rowsC1` and filter ["Inbox"],
the claimed condition holds — every position of the filter equals the
corresponding element of the reversed ancestry — yet the output contains
no line at all: the filter check consumes the whole one-pass iterator, so
the renderer raises IndexError and the run aborts instead of including
the bookmark. -/
theorem c1_counterexample :
    claim_matches ["Inbox"] [some "Inbox"] = true ∧
    parent_generator (by_id rowsC1) 5 2 = GenRes.ok [some "Inbox"] ∧
    write_rofi_input rowsC1 () title_gen_only_name ["Inbox"] 5 =
      ([], some RunError.indexError) :=
  ⟨rfl, rfl, rfl⟩

/-- C1 (amended): provided its parent chain resolves, a bookmark-type row
yields an output line if and only if every position of the search filter
equals the corresponding element of the reversed ancestry (which must
exist) AND the part of the ancestry left unconsumed by the filter check —
the elements after the first `search.length` — still contains a
non-absent title for the final-segment renderer; when the positional
condition holds but no renderable title remains, the run raises instead
of emitting. -/
theorem c1_filter_iff (byId : Int → Option (Option String × Int))
    (search : List String) (fuel : Nat) (r : BookmarkRow)
    (ts : List (Option String))
    (ht : r.type = 1)
    (hg : parent_generator byId fuel r.id = GenRes.ok ts) :
    (∃ line, processRow byId title_gen_only_name search fuel r =
        Except.ok (some line)) ↔
      (claim_matches search ts.reverse = true ∧
        (ts.reverse.drop search.length).filterMap id ≠ []) := by
  simp only [processRow, ht, ne_eq, not_true_eq_false, if_false, hg]
  cases hfc : filter_check search ts.reverse with
  | error e =>
    constructor
    · rintro ⟨line, h⟩; exact Except.noConfusion h
    · rintro ⟨hm, _⟩
      have h2 := (filter_check_ok_true_iff search ts.reverse
        (ts.reverse.drop search.length)).mpr ⟨hm, rfl⟩
      rw [hfc] at h2
      exact Except.noConfusion h2
  | ok br =>
    obtain ⟨b, rest⟩ := br
    cases b
    · constructor
      · rintro ⟨line, h⟩; simp at h
      · rintro ⟨hm, _⟩
        have h2 := (filter_check_ok_true_iff search ts.reverse
          (ts.reverse.drop search.length)).mpr ⟨hm, rfl⟩
        rw [hfc] at h2
        simp at h2
    · obtain ⟨hm, hrest⟩ := (filter_check_ok_true_iff search ts.reverse rest).mp hfc
      subst hrest
      simp only [hm, true_and, title_gen_only_name]
      cases hl : ((ts.reverse.drop search.length).filterMap id).getLast? with
      | none =>
        simp only [hl]
        constructor
        · rintro ⟨line, h⟩; exact Except.noConfusion h
        · intro hne
          exact absurd (List.getLast?_eq_none_iff.mp hl) hne
      | some t =>
        simp only [hl]
        constructor
        · intro _
          intro hnil
          rw [hnil] at hl
          exact Option.noConfusion hl
        · intro _
          exact ⟨t ++ "\x00info\x1f" ++ url_str r.url, rfl⟩

/-- C1 (witness): the amended iff applied to a concrete bookmark with the
empty filter. -/
theorem c1_witness :
    (∃ line, processRow (fun i => if i = 3 then some (some "Docs", 1) else none)
        title_gen_only_name [] 5 ⟨3, 1, 1, some "Docs", some "http://d"⟩ =
        Except.ok (some line)) ↔
      (claim_matches [] ([some "Docs"] : List (Option String)).reverse = true ∧
        ((([some "Docs"] : List (Option String)).reverse.drop 0).filterMap id ≠ [])) :=
  c1_filter_iff (fun i => if i = 3 then some (some "Docs", 1) else none)
    [] 5 ⟨3, 1, 1, some "Docs", some "http://d"⟩ [some "Docs"] rfl (by decide)

/-- With the empty filter, every bookmark-type row whose chain resolves
and whose ancestry holds at least one non-absent title contributes exactly
one line; non-bookmark rows contribute none; the loop never aborts. -/
theorem run_rows_empty_filter (byId : Int → Option (Option String × Int))
    (fuel : Nat) :
    ∀ rows : List BookmarkRow,
      (∀ r ∈ rows, r.type = 1 → ∃ ts,
        parent_generator byId fuel r.id = GenRes.ok ts ∧ ts.filterMap id ≠ []) →
      (run_rows byId title_gen_only_name [] fuel rows).2 = none ∧
      (run_rows byId title_gen_only_name [] fuel rows).1.length =
        (rows.filter (fun r => r.type == 1)).length := by
  intro rows
  induction rows with
  | nil => intro _; exact ⟨rfl, rfl⟩
  | cons r rs ih =>
    intro h
    obtain ⟨h2, h3⟩ := ih (fun x hx => h x (List.mem_cons_of_mem _ hx))
    by_cases ht : r.type = 1
    · obtain ⟨ts, hg, hne⟩ := h r (List.mem_cons_self _ _) ht
      have hne2 : ts.reverse.filterMap id ≠ [] := by
        rw [List.filterMap_reverse]
        intro hc
        exact hne (List.reverse_eq_nil_iff.mp hc)
      have hlast : (ts.reverse.filterMap id).getLast? ≠ none :=
        fun hc => hne2 (List.getLast?_eq_none_iff.mp hc)
      obtain ⟨t, hl⟩ := Option.ne_none_iff_exists'.mp hlast
      have hproc : processRow byId title_gen_only_name [] fuel r =
          Except.ok (some (t ++ "\x00info\x1f" ++ url_str r.url)) := by
        simp only [processRow, ht, ne_eq, not_true_eq_false, if_false, hg,
          filter_check, title_gen_only_name, hl]
      refine ⟨?_, ?_⟩
      · simp only [run_rows, hproc]
        exact h2
      · simp only [run_rows, hproc, List.filter_cons, ht]
        simp [h3]
    · have hproc : processRow byId title_gen_only_name [] fuel r =
          Except.ok none := by
        simp [processRow, ht]
      refine ⟨?_, ?_⟩
      · simp only [run_rows, hproc]
        exact h2
      · simp only [run_rows, hproc, List.filter_cons]
        simp [ht, h3]

/-- A bookmark-type row whose every title on the path is absent (NULL):
its parent chain terminates, yet final-segment rendering raises. -/
def rowsC7 : List BookmarkRow := [⟨2, 1, 1, none, some "http://u"⟩]

/-- C7 (counterexample): a bookmark-type row with a NULL title and a
chain that terminates at the sentinel produces no output line with the
empty filter — the final-segment renderer raises IndexError — refuting
"every row whose entry type equals 1 produces exactly one output line". -/
theorem c7_counterexample :
    parent_generator (by_id rowsC7) 5 2 = GenRes.ok [none] ∧
    write_rofi_input rowsC7 () title_gen_only_name [] 5 =
      ([], some RunError.indexError) :=
  ⟨rfl, rfl⟩

/-- C7 (amended): with the empty filter, every bookmark-type row whose
parent chain terminates AND whose path contains at least one non-absent
title produces exactly one output line regardless of tree depth, rows of
any other entry type produce none, and the run finishes without error. -/
theorem c7_empty_filter_one_line (rows : List BookmarkRow) (fuel : Nat)
    (h : ∀ r ∈ rows, r.type = 1 → ∃ ts,
      parent_generator (by_id rows) fuel r.id = GenRes.ok ts ∧
        ts.filterMap id ≠ []) :
    (write_rofi_input rows () title_gen_only_name [] fuel).2 = none ∧
    (write_rofi_input rows () title_gen_only_name [] fuel).1.length =
      (rows.filter (fun r => r.type == 1)).length :=
  run_rows_empty_filter (by_id rows) fuel rows h

/-- A bookmark row and a folder row, both with resolvable chains. -/
def rowsW7 : List BookmarkRow :=
  [⟨2, 1, 1, some "A", some "http://a"⟩, ⟨3, 1, 2, some "F", none⟩]

/-- C7 (witness): on `rowsW7` the run emits exactly one line — for the
single bookmark-type row — and no error. -/
theorem c7_witness :
    (write_rofi_input rowsW7 () title_gen_only_name [] 5).2 = none ∧
    (write_rofi_input rowsW7 () title_gen_only_name [] 5).1.length =
      (rowsW7.filter (fun r => r.type == 1)).length :=
  c7_empty_filter_one_line rowsW7 5 (by
    intro r hr ht
    simp only [rowsW7, List.mem_cons, List.not_mem_nil, or_false] at hr
    rcases hr with rfl | rfl
    · exact ⟨[some "A"], by decide, by decide⟩
    · exact absurd ht (by decide))

/-- C8: over the parsed sections of `profiles.ini` — each section
well-formed per the data model, i.e. a section holding a `Name` key also
holds a `Path` key — the resolver returns `firefox_dir / Path` of the
FIRST section whose `Name` equals the requested name, and raises the
no-profile error exactly when no section's `Name` matches. -/
theorem c8_first_name_match (firefoxDir name : String)
    (sections : List IniSection)
    (hwf : ∀ s ∈ sections, (List.lookup "Name" s).isSome →
      (List.lookup "Path" s).isSome) :
    (∀ sec, sections.find? (fun s => List.lookup "Name" s == some name) =
        some sec →
      ∃ p, List.lookup "Path" sec = some p ∧
        path_from_name firefoxDir name sections =
          Except.ok (firefoxDir ++ "/" ++ p)) ∧
    (sections.find? (fun s => List.lookup "Name" s == some name) = none →
      path_from_name firefoxDir name sections =
        Except.error ProfileErr.profileNotFound) := by
  induction sections with
  | nil =>
    exact ⟨fun sec hsec => by simp [List.find?] at hsec, fun _ => rfl⟩
  | cons s rest ih =>
    have ihr := ih (fun x hx => hwf x (List.mem_cons_of_mem _ hx))
    cases hname : List.lookup "Name" s with
    | none =>
      have hfind : ((s :: rest).find?
          (fun s => List.lookup "Name" s == some name)) =
          rest.find? (fun s => List.lookup "Name" s == some name) :=
        List.find?_cons_of_neg _ (by simp [hname])
      have hpfn : path_from_name firefoxDir name (s :: rest) =
          path_from_name firefoxDir name rest := by
        simp [path_from_name, hname]
      rw [hfind, hpfn]
      exact ihr
    | some v =>
      by_cases hv : v = name
      · rw [hv] at hname
        have hfind : ((s :: rest).find?
            (fun s => List.lookup "Name" s == some name)) = some s :=
          List.find?_cons_of_pos _ (by simp [hname])
        have hpath : (List.lookup "Path" s).isSome :=
          hwf s (List.mem_cons_self _ _) (by simp [hname])
        obtain ⟨p, hp⟩ := Option.isSome_iff_exists.mp hpath
        constructor
        · intro sec hsec
          rw [hfind] at hsec
          injection hsec with hsec
          subst hsec
          refine ⟨p, hp, ?_⟩
          simp [path_from_name, hname, hp]
        · intro hnone
          rw [hfind] at hnone
          exact Option.noConfusion hnone
      · have hfind : ((s :: rest).find?
            (fun s => List.lookup "Name" s == some name)) =
            rest.find? (fun s => List.lookup "Name" s == some name) :=
          List.find?_cons_of_neg _ (by simp [hname, hv])
        have hpfn : path_from_name firefoxDir name (s :: rest) =
            path_from_name firefoxDir name rest := by
          simp [path_from_name, hname, hv]
        rw [hfind, hpfn]
        exact ihr

/-- Parsed sections with two sections named "X": resolution must take the
first of them. -/
def sectionsW : List IniSection :=
  [[("Name", "Y"), ("Path", "y1")],
   [("Name", "X"), ("Path", "x1")],
   [("Name", "X"), ("Path", "x2")]]

/-- C8 (witness): on `sectionsW` the resolver picks the first section
named "X" and returns its path. -/
theorem c8_witness :
    ∃ p, List.lookup "Path"
        ([("Name", "X"), ("Path", "x1")] : List (String × String)) = some p ∧
      path_from_name "ffdir" "X" sectionsW =
        Except.ok ("ffdir" ++ "/" ++ p) :=
  (c8_first_name_match "ffdir" "X" sectionsW (by decide)).1
    [("Name", "X"), ("Path", "x1")] (by decide)
